import Mathlib

/-
Verification of the STX core containers (src/include/stx/internal/option_result.h)
and the abort panic handler (src/include/stx/panic/handlers/abort/abort.h).

The C++ `Option<T>` is a tagged union (`is_none_` discriminant plus a one-slot
union); `Result<T, E>` is a tagged union (`is_ok_` discriminant plus a two-slot
union). We embed them as Lean inductives whose constructor is the discriminant
and whose argument is the live payload. Moves are modelled at the value level:
moving a payload transfers its value; a moved-from object retains its value
(its concrete state is unspecified in C++ and never observed by the claims).
Functions that may invoke the panic path return an `Exec` recording whether a
normal return happened and how many panic invocations occurred.
-/

namespace Stx

/-- The optional-value container: `Option<T>` with states `Some` (payload live)
and `None` (no payload), mirroring the `is_none_` discriminant. -/
inductive Option (T : Type) where
  | Some : T → Option T
  | None : Option T
deriving DecidableEq

/-- The success/failure container: `Result<T, E>` with states `Ok` (success
payload live) and `Err` (failure payload live), mirroring `is_ok_`. -/
inductive Result (T E : Type) where
  | Ok : T → Result T E
  | Err : E → Result T E
deriving DecidableEq

variable {T U E F V W : Type}

/-- `Option::is_none`: reads the `is_none_` discriminant. -/
def Option.is_none : Option T → Bool
  | .Some _ => false
  | .None => true

/-- `Option::is_some`: defined in the source as the negation of `is_none()`. -/
def Option.is_some (o : Option T) : Bool :=
  !o.is_none

/-- `Result::is_ok`: reads the `is_ok_` discriminant. -/
def Result.is_ok : Result T E → Bool
  | .Ok _ => true
  | .Err _ => false

/-- `Result::is_err`: defined in the source as the negation of `is_ok()`. -/
def Result.is_err (r : Result T E) : Bool :=
  !r.is_ok

/-- Outcome of running an accessor that may hit the panic path: `ret` is the
normally returned value (`None` when control never returns normally) and
`panics` counts invocations of the panic path. -/
structure Exec (α : Type) where
  ret : Option α
  panics : Nat
deriving DecidableEq

/-- Modelled from the spec: the panic helpers declared in
stx/internal/panic_helpers.h (internal::option::no_lref,
internal::option::no_value, internal::result::no_err_lref) are not under src/.
Per section 4.3 of the spec a panic invocation has no return path and is a
terminal operation for the calling control flow, so a call records exactly one
panic invocation and yields no normal return. -/
def panicCall : Exec α :=
  { ret := .None, panics := 1 }

/-- `Option::value() &`: `if (is_none_) internal::option::no_lref();` then
returns the payload. The helper is noreturn, so the `None` branch is terminal. -/
def Option.value : Option T → Exec T
  | .None => panicCall
  | .Some v => { ret := .Some v, panics := 0 }

/-- `Option::unwrap() &&`: moves the payload out if `Some`, otherwise calls
`internal::option::no_value()` (noreturn). -/
def Option.unwrap : Option T → Exec T
  | .Some v => { ret := .Some v, panics := 0 }
  | .None => panicCall

/-- `Result::err_value() &`: `if (is_ok_) internal::result::no_err_lref(...)`
(noreturn), otherwise returns the failure payload. -/
def Result.err_value : Result T E → Exec E
  | .Ok _ => panicCall
  | .Err e => { ret := .Some e, panics := 0 }

/-- `Option::ok_or(E error) &&`: `Some` maps to `Ok` of the moved payload,
`None` maps to `Err` of the supplied error. -/
def Option.ok_or (o : Option T) (error : E) : Result T E :=
  match o with
  | .Some v => .Ok v
  | .None => .Err error

/-- `Result::ok() &&`: projects the success payload into the optional
container, discarding the failure side. -/
def Result.ok : Result T E → Option T
  | .Ok v => .Some v
  | .Err _ => .None

/-- `Result::err() &&`: projects the failure payload into the optional
container, discarding the success side. -/
def Result.err : Result T E → Option E
  | .Ok _ => .None
  | .Err e => .Some e

/-- `Option::AND(Option<U>&& cmp) &&`: returns `cmp` when `Some`, else `None`. -/
def Option.AND (o : Option T) (cmp : Option U) : Option U :=
  match o with
  | .Some _ => cmp
  | .None => .None

/-- `Option::OR(Option&& alt) &&`: returns itself when `Some`, else `alt`. -/
def Option.OR (o : Option T) (alt : Option T) : Option T :=
  match o with
  | .Some v => .Some v
  | .None => alt

/-- `Option::XOR(Option&& alt) &&`: returns whichever operand is uniquely
`Some`, else `None`. -/
def Option.XOR (o : Option T) (alt : Option T) : Option T :=
  match o, alt with
  | .Some v, .None => .Some v
  | .None, .Some w => .Some w
  | _, _ => .None

/-- `Option::and_then(Fn&& op) &&`: applies `op` to the moved payload when
`Some`, else yields `None` without touching `op`. The second component counts
how many times `op` is invoked along the executed path. -/
def Option.and_then (o : Option T) (op : T → Option U) : Option U × Nat :=
  match o with
  | .Some v => (op v, 1)
  | .None => (.None, 0)

/-- `Result::and_then(Fn&& op) &&`: wraps `op` of the moved success payload in
`Ok` when `Ok`, else forwards the failure payload in `Err` without touching
`op`. The second component counts invocations of `op`. -/
def Result.and_then (r : Result T E) (op : T → U) : Result U E × Nat :=
  match r with
  | .Ok v => (.Ok (op v), 1)
  | .Err e => (.Err e, 0)

/-- `Result::AND(Result<U, F>&& res) &&` with `requires convertible_to<E, F>`:
returns `res` when `Ok`, else a failure carrying the converted own failure
payload (`Err<F>(E(std::move(err_ref_())))`). The required conversion from `E`
to `F` is passed explicitly. -/
def Result.AND (r : Result T E) (res : Result U F) (conv : E → F) : Result U F :=
  match r with
  | .Ok _ => res
  | .Err e => .Err (conv e)

/-- `Result::OR(Result<U, F>&& alt) &&` with `requires convertible_to<T&&, U>`:
returns a success carrying the converted own success payload
(`Ok<U>(static_cast<U>(std::move(value_ref_())))`) when `Ok`, else `alt`. -/
def Result.OR (r : Result T E) (alt : Result U F) (conv : T → U) : Result U F :=
  match r with
  | .Ok v => .Ok (conv v)
  | .Err _ => alt

/-- `Option::take()`: when `Some`, moves the payload into a fresh `Some`,
destroys the slot and flips the discriminant to none; when `None`, returns
`None` unchanged. First component is the container's new state, second the
returned option. -/
def Option.take (o : Option T) : Option T × Option T :=
  match o with
  | .Some v => (.None, .Some v)
  | .None => (.None, .None)

/-- `Option::replace(T&& replacement)`: when `Some`, swaps the replacement with
the live payload and returns the old payload in `Some`; when `None`,
placement-constructs the replacement and returns `None`. First component is the
container's new state, second the returned option. -/
def Option.replace (o : Option T) (replacement : T) : Option T × Option T :=
  match o with
  | .Some v => (.Some replacement, .Some v)
  | .None => (.Some replacement, .None)

/-- `Option::replace(T const& replacement)`: same as the r-value overload
except the replacement is first copied; value-level behaviour is identical. -/
def Option.replace_copy (o : Option T) (replacement : T) : Option T × Option T :=
  match o with
  | .Some v => (.Some replacement, .Some v)
  | .None => (.Some replacement, .None)

/-- `Option::operator=(Option&& rhs)`: four cases on the two discriminants.
some/some swaps the payloads; some/none moves the target payload into the rhs
slot and flips both discriminants; none/some moves the rhs payload into the
target slot and flips both; none/none does nothing. First component is the new
target state, second the new rhs state. -/
def Option.moveAssign (target rhs : Option T) : Option T × Option T :=
  match target, rhs with
  | .Some a, .Some b => (.Some b, .Some a)
  | .Some a, .None => (.None, .Some a)
  | .None, .Some b => (.Some b, .None)
  | .None, .None => (.None, .None)

/-- Payload-lifetime events on the assignment target of
`Result::operator=(Result&&)`: destruction of the live `T`/`E` slot and
placement-construction of the incoming `T`/`E` slot. A `std::swap` of two live
payloads raises none of these events: both slots remain alive throughout. -/
inductive Event where
  | destructT : Event
  | destructE : Event
  | constructT : Event
  | constructE : Event
deriving DecidableEq

/-- Whether an event destroys a payload slot. -/
def Event.isDestruct : Event → Bool
  | .destructT => true
  | .destructE => true
  | _ => false

/-- Whether an event placement-constructs a payload slot. -/
def Event.isConstruct : Event → Bool
  | .constructT => true
  | .constructE => true
  | _ => false

/-- An event list contains a destruction that is followed, strictly later, by a
construction. -/
def destroyThenConstruct : List Event → Bool
  | [] => false
  | e :: rest => if e.isDestruct then rest.any Event.isConstruct
                 else destroyThenConstruct rest

/-- Result of running `Result::operator=(Result&&)`: the target's new state,
the right-hand side's new state, and the payload-lifetime events on the target
in execution order. -/
structure AssignExec (T E : Type) where
  target : Result T E
  source : Result T E
  events : List Event
deriving DecidableEq

/-- `Result::operator=(Result&& rhs)`: ok/ok swaps the success payloads (no
destruction or construction); ok/err destroys the target `T` slot then
placement-constructs the incoming `E` and flips the discriminant; err/ok
destroys the target `E` slot then placement-constructs the incoming `T` and
flips the discriminant; err/err swaps the failure payloads. A moved-from rhs
payload retains its value at this level of modelling. -/
def Result.moveAssign (target rhs : Result T E) : AssignExec T E :=
  match target, rhs with
  | .Ok a, .Ok b => { target := .Ok b, source := .Ok a, events := [] }
  | .Ok _, .Err f =>
      { target := .Err f, source := .Err f,
        events := [Event.destructT, Event.constructE] }
  | .Err _, .Ok b =>
      { target := .Ok b, source := .Ok b,
        events := [Event.destructE, Event.constructT] }
  | .Err e, .Err f => { target := .Err f, source := .Err e, events := [] }

/-- Source location as described by the panic handler contract: file, line,
column and function name. The concrete `SourceLocation` class lives in
stx/panic.h, which is not under src/; its shape here follows section 6 of the
spec. -/
structure SourceLocation where
  file : String
  line : Nat
  column : Nat
  func : String
deriving DecidableEq

/-- `stx::panic_abort` (src/include/stx/panic/handlers/abort/abort.h): discards
its message and location and executes `std::abort()`. Modelled from the spec:
`std::abort` is external to src/ and, per sections 4.3 and 6, terminates the
process with no return path, so the call records one terminal invocation and
yields no normal return. -/
def panic_abort (info : String) (location : SourceLocation) : Exec Unit :=
  { ret := .None, panics := 1 }

end Stx

/-- Claim C1: calling `value()` or `unwrap()` on an `Absent` option invokes the
panic path exactly once and does not return normally, and calling `err_value()`
on a `Success` result invokes the panic path exactly once and does not return
normally. -/
theorem Stx.absent_access_invokes_panic_once (T E : Type) (t : T) :
    (Stx.Option.value (Stx.Option.None : Stx.Option T)).panics = 1 ∧
    (Stx.Option.value (Stx.Option.None : Stx.Option T)).ret = .None ∧
    (Stx.Option.unwrap (Stx.Option.None : Stx.Option T)).panics = 1 ∧
    (Stx.Option.unwrap (Stx.Option.None : Stx.Option T)).ret = .None ∧
    (Stx.Result.err_value (Stx.Result.Ok t : Stx.Result T E)).panics = 1 ∧
    (Stx.Result.err_value (Stx.Result.Ok t : Stx.Result T E)).ret = .None :=
  ⟨rfl, rfl, rfl, rfl, rfl, rfl⟩

/-- Claim C2, counterexample: move-assigning `Ok 1` into `Ok 0` raises no
destruction or construction event at all — the success payloads are swapped in
place — so it is false that in every variant combination the outgoing payload
is destructed before the incoming payload is constructed. -/
theorem Stx.result_move_assign_swap_counterexample :
    ¬ (Stx.destroyThenConstruct
        (Stx.Result.moveAssign (Stx.Result.Ok 0 : Stx.Result Nat Nat)
          (Stx.Result.Ok 1)).events = true ∧
       (Stx.Result.moveAssign (Stx.Result.Ok 0 : Stx.Result Nat Nat)
          (Stx.Result.Ok 1)).target = Stx.Result.Ok 1) := by
  decide

/-- Claim C2, amended: move-assignment on `Result<T, E>` handles all four
variant combinations; in the cross-variant combinations (success from failure
and failure from success) the outgoing payload of the correct type is
destructed before the incoming payload is constructed, while in the
same-variant combinations the payloads are exchanged by swap with no
destruction or construction; in every combination the target afterwards holds
the right-hand side's prior variant and payload. -/
theorem Stx.result_move_assign_characterization (T E : Type)
    (a b : T) (e f : E) :
    (∀ x y : Stx.Result T E, (Stx.Result.moveAssign x y).target = y) ∧
    (Stx.Result.moveAssign (Stx.Result.Ok a : Stx.Result T E)
        (Stx.Result.Ok b)).events = [] ∧
    (Stx.Result.moveAssign (Stx.Result.Ok a) (Stx.Result.Err f)).events =
      [Stx.Event.destructT, Stx.Event.constructE] ∧
    (Stx.Result.moveAssign (Stx.Result.Err e) (Stx.Result.Ok b)).events =
      [Stx.Event.destructE, Stx.Event.constructT] ∧
    (Stx.Result.moveAssign (Stx.Result.Err e : Stx.Result T E)
        (Stx.Result.Err f)).events = [] ∧
    Stx.destroyThenConstruct
      (Stx.Result.moveAssign (Stx.Result.Ok a) (Stx.Result.Err f)).events
      = true ∧
    Stx.destroyThenConstruct
      (Stx.Result.moveAssign (Stx.Result.Err e) (Stx.Result.Ok b)).events
      = true := by
  refine ⟨?_, rfl, rfl, rfl, rfl, rfl, rfl⟩
  intro x y
  cases x <;> cases y <;> rfl

/-- Claim C3: `Present(v).ok_or(e) = Success(v)`, `Absent.ok_or(e) =
Failure(e)`, `Success(v).ok() = Present(v)`, `Failure(e).ok() = Absent`, and
`Failure(e).err() = Present(e)`. -/
theorem Stx.option_result_conversion_roundtrip (T E : Type) (v : T) (e : E) :
    (Stx.Option.Some v).ok_or e = Stx.Result.Ok v ∧
    (Stx.Option.None : Stx.Option T).ok_or e = Stx.Result.Err e ∧
    (Stx.Result.Ok v : Stx.Result T E).ok = Stx.Option.Some v ∧
    (Stx.Result.Err e : Stx.Result T E).ok = Stx.Option.None ∧
    (Stx.Result.Err e : Stx.Result T E).err = Stx.Option.Some e :=
  ⟨rfl, rfl, rfl, rfl, rfl⟩

/-- Claim C4: on options, `AND`, `OR` and `XOR` produce a result whose
is-present state is the boolean AND, OR, XOR of the operands' is-present
states, and the payload comes from the designated operand: the second for
`AND`, the first present one for `OR`, the uniquely present one for `XOR`. -/
theorem Stx.option_and_or_xor_truth_tables (T U : Type)
    (a : Stx.Option T) (b : Stx.Option U) (c d : Stx.Option T) (v : T) (w : U) :
    (a.AND b).is_some = (a.is_some && b.is_some) ∧
    (Stx.Option.Some v).AND (Stx.Option.Some w) = Stx.Option.Some w ∧
    (c.OR d).is_some = (c.is_some || d.is_some) ∧
    (Stx.Option.Some v).OR c = Stx.Option.Some v ∧
    (Stx.Option.None : Stx.Option T).OR c = c ∧
    (c.XOR d).is_some = (Bool.xor c.is_some d.is_some) ∧
    (Stx.Option.Some v).XOR Stx.Option.None = Stx.Option.Some v ∧
    (Stx.Option.None).XOR (Stx.Option.Some v) = Stx.Option.Some v := by
  refine ⟨?_, rfl, ?_, rfl, rfl, ?_, rfl, rfl⟩
  · cases a <;> cases b <;> rfl
  · cases c <;> cases d <;> rfl
  · cases c <;> cases d <;> rfl

/-- Claim C5: `take()` on `Present(v)` leaves the container `Absent` and
returns `Present(v)`; on `Absent` it leaves the container `Absent` and returns
`Absent`. -/
theorem Stx.option_take_behaviour (T : Type) (v : T) :
    (Stx.Option.Some v).take = (Stx.Option.None, Stx.Option.Some v) ∧
    (Stx.Option.None : Stx.Option T).take = (Stx.Option.None, Stx.Option.None) :=
  ⟨rfl, rfl⟩

/-- Claim C6: `replace(x)` (both overloads) on `Present(old)` leaves the
container `Present(x)` and returns `Present(old)`; on `Absent` it leaves the
container `Present(x)` and returns `Absent`. -/
theorem Stx.option_replace_behaviour (T : Type) (old x : T) :
    (Stx.Option.Some old).replace x = (Stx.Option.Some x, Stx.Option.Some old) ∧
    (Stx.Option.None : Stx.Option T).replace x
      = (Stx.Option.Some x, Stx.Option.None) ∧
    (Stx.Option.Some old).replace_copy x
      = (Stx.Option.Some x, Stx.Option.Some old) ∧
    (Stx.Option.None : Stx.Option T).replace_copy x
      = (Stx.Option.Some x, Stx.Option.None) :=
  ⟨rfl, rfl, rfl, rfl⟩

/-- Claim C7: `and_then` short-circuits — for any function, an `Absent`
option's `and_then` yields `Absent` with zero invocations of the function, and
a `Failure` result's `and_then` forwards the failure payload unchanged with
zero invocations of the function. -/
theorem Stx.and_then_short_circuits (T U V W E : Type)
    (f : T → Stx.Option U) (g : V → W) (e : E) :
    (Stx.Option.None : Stx.Option T).and_then f = (Stx.Option.None, 0) ∧
    (Stx.Result.Err e : Stx.Result V E).and_then g = (Stx.Result.Err e, 0) :=
  ⟨rfl, rfl⟩

/-- Claim C8: `Result::AND` (which requires the left failure type to convert to
the right's) returns the right operand when the left is a success and otherwise
a failure carrying the left's converted failure payload; `Result::OR` (which
requires the left success type to convert to the right's) returns a success
carrying the left's converted success payload when the left is a success and
otherwise the right operand. -/
theorem Stx.result_and_or_conversion (T U E F : Type)
    (v : T) (e : E) (r : Stx.Result U F) (cv : E → F) (cu : T → U) :
    (Stx.Result.Ok v : Stx.Result T E).AND r cv = r ∧
    (Stx.Result.Err e : Stx.Result T E).AND r cv = Stx.Result.Err (cv e) ∧
    (Stx.Result.Ok v : Stx.Result T E).OR r cu = Stx.Result.Ok (cu v) ∧
    (Stx.Result.Err e : Stx.Result T E).OR r cu = r :=
  ⟨rfl, rfl, rfl, rfl⟩

/-- Claim C9: the abort panic handler, called with any message and any source
location, never returns normally and terminates the calling control flow with
exactly one terminal invocation. -/
theorem Stx.panic_abort_never_returns (info : String)
    (location : Stx.SourceLocation) :
    (Stx.panic_abort info location).ret = .None ∧
    (Stx.panic_abort info location).panics = 1 :=
  ⟨rfl, rfl⟩

/-- Claim C10: `Option`'s move-assignment exchanges the full states of the two
containers in all four Present/Absent combinations — afterwards the target
holds the right-hand side's former variant and payload, and the right-hand
side holds the target's former variant and payload. -/
theorem Stx.option_move_assign_swaps_states (T : Type)
    (a b : Stx.Option T) :
    Stx.Option.moveAssign a b = (b, a) := by
  cases a <;> cases b <;> rfl
